import Mathlib

/-
Verification development for `normcap/gui/window.py` (NormCap capture window).

The Python module is a Qt (PySide6) window: a fullscreen screenshot overlay on
which the user drags a selection rectangle.  We shallowly embed the state and
the event handlers of `Window` and `UiLayerLabel` as pure Lean functions:
* machine integers of Python/Qt become `Int`/`Nat` (Python ints are unbounded,
  Qt coordinates are ints well inside range on all relevant inputs);
* Python floats (the scale factor, produced by true division of two ints)
  become `Rat`, which is exact on every input exercised here;
* fallible code (`raise ValueError`, `ZeroDivisionError`, `KeyError`) becomes
  `Except`;
* Qt signal emissions and other side effects (focus requests, D-Bus calls,
  repaint requests) become an explicit effect list returned by each handler.

Types imported by the module from `normcap.gui.models` / `normcap.gui.settings`
(`Rect`, `Screen`, `CaptureMode`, `Settings`) are not part of the sources under
verification; they are modelled from the specification and marked as such.
Qt value types (`QPoint`, `QRect`) are embedded with Qt 6 semantics, since the
module imports PySide6 (the Qt-6 bindings); in particular `QRect.normalized`
is the Qt 6 version, which swaps the corners of a reversed rectangle and at
the same time shifts them one pixel inwards so that the size is preserved.
-/

namespace NormCap

/-- Decidable equality for `Except`, so that concrete runs of the fallible
embedded code can be checked by `decide`. -/
instance {ε α : Type} [DecidableEq ε] [DecidableEq α] :
    DecidableEq (Except ε α) := fun x y =>
  match x, y with
  | .ok a, .ok b =>
      if h : a = b then .isTrue (by simp [h]) else .isFalse (by simp [h])
  | .error a, .error b =>
      if h : a = b then .isTrue (by simp [h]) else .isFalse (by simp [h])
  | .ok _, .error _ => .isFalse (by simp)
  | .error _, .ok _ => .isFalse (by simp)

/-- A `QPoint`: integer x/y coordinates.  `QPoint()` is the origin `(0, 0)`. -/
structure Point where
  x : Int
  y : Int
deriving DecidableEq, Repr

/-- The empty point `QPoint()`, used to reset the selection. -/
def Point.empty : Point := ⟨0, 0⟩

/-- A `QRect` in Qt's internal representation: the corner coordinates
`x1, y1, x2, y2` (so `width = x2 - x1 + 1`). -/
structure QRect where
  x1 : Int
  y1 : Int
  x2 : Int
  y2 : Int
deriving DecidableEq, Repr

/-- The constructor `QRect(topLeft, bottomRight)`, from two `QPoint`s used in
`mouseReleaseEvent` and `paintEvent`. -/
def QRect.fromPoints (topLeft bottomRight : Point) : QRect :=
  ⟨topLeft.x, topLeft.y, bottomRight.x, bottomRight.y⟩

/-- Qt 6 `QRect::normalized()`: if `x2 < x1` the left and right corners are
swapped and shifted one pixel inwards (keeping the size), and likewise for
`y2 < y1`. -/
def QRect.normalized (r : QRect) : QRect :=
  { x1 := if r.x2 < r.x1 then r.x2 + 1 else r.x1
    x2 := if r.x2 < r.x1 then r.x1 - 1 else r.x2
    y1 := if r.y2 < r.y1 then r.y2 + 1 else r.y1
    y2 := if r.y2 < r.y1 then r.y1 - 1 else r.y2 }

/-- The method `QRect::getCoords()`: the tuple `(x1, y1, x2, y2)`. -/
def QRect.getCoords (r : QRect) : Int × Int × Int × Int :=
  (r.x1, r.y1, r.x2, r.y2)

/-- The accessor `QRect::right()` is `x2`. -/
def QRect.right (r : QRect) : Int := r.x2

/-- The accessor `QRect::top()` is `y1`. -/
def QRect.top (r : QRect) : Int := r.y1

/-- Modelled from the spec: `Rect` from `normcap.gui.models` (not under the
verified sources): an axis-aligned rectangle given by its corner coordinates
`left, top, right, bottom`, a plain value type. Coordinates are rational so
that uniform scaling by the (rational) scale factor is exact. -/
structure Rect where
  left : ℚ
  top : ℚ
  right : ℚ
  bottom : ℚ
deriving DecidableEq, Repr

/-- Modelled from the spec: `Rect.scaled(factor)` scales the rectangle
uniformly by a factor, converting between logical-screen and image-pixel
space (example in the spec: (100,100)-(300,250) scaled by 2.0 is
(200,200)-(600,500)). -/
def Rect.scaled (r : Rect) (factor : ℚ) : Rect :=
  ⟨r.left * factor, r.top * factor, r.right * factor, r.bottom * factor⟩

/-- The call `Rect(*coords)` applied to the result of `QRect.getCoords`. -/
def Rect.ofCoords (c : Int × Int × Int × Int) : Rect :=
  ⟨(c.1 : ℚ), (c.2.1 : ℚ), (c.2.2.1 : ℚ), (c.2.2.2 : ℚ)⟩

/-- Written from the spec's words, for comparison with the code: the
axis-aligned normalization of the rectangle spanned by two points, i.e. the
rectangle with `left ≤ right` and `top ≤ bottom` having the two points as
opposite corners (componentwise min/max). -/
def specNormalize (p0 p1 : Point) : Rect :=
  ⟨(min p0.x p1.x : Int), (min p0.y p1.y : Int),
   (max p0.x p1.x : Int), (max p0.y p1.y : Int)⟩

/-- A captured screenshot image (`QImage`): its pixel dimensions. -/
structure Image where
  width : ℕ
  height : ℕ
deriving DecidableEq, Repr

/-- Modelled from the spec: `Screen` from `normcap.gui.models` (not under the
verified sources): a per-display descriptor with display index, logical
bounds (left, top, width, height), an optional captured image, and the device
pixel ratio (called `dpr` here). -/
structure Screen where
  index : ℕ
  left : Int
  top : Int
  width : ℕ
  height : ℕ
  screenshot : Option Image
  dpr : ℚ
deriving DecidableEq, Repr

/-- Modelled from the spec: the two-member capture-mode enumeration
(raw text vs. parsed/structured). -/
inductive CaptureMode where
  | RAW
  | PARSE
deriving DecidableEq, Repr

/-- Modelled from the spec: member lookup by name on the `CaptureMode`
enumeration, as done by `CaptureMode[mode.upper()]`; any other name fails
(Python raises `KeyError`), signalled here by `none`. -/
def CaptureMode.ofName : String → Option CaptureMode
  | "RAW" => some .RAW
  | "PARSE" => some .PARSE
  | _ => none

/-- Python's `str.upper()` on the ASCII configuration strings involved here:
per-character upper-casing (written over the character list so that it is
structurally recursive). -/
def pyUpper (s : String) : String := ⟨s.data.map Char.toUpper⟩

/-- Modelled from the spec: the settings store, restricted to the two keys the
window reads: the capture-mode string and the accent-color string. -/
structure Settings where
  mode : String
  color : String
deriving DecidableEq, Repr

/-- The desktop environments distinguished by the module. -/
inductive DesktopEnvironment where
  | gnome
  | kde
  | unity
  | other
deriving DecidableEq, Repr

/-- The ambient platform facts the handlers query via `system_info`:
whether the session is Wayland and which desktop environment runs.  Constant
during a window's lifetime. -/
structure Env where
  wayland : Bool
  de : DesktopEnvironment
deriving DecidableEq, Repr

/-- Mouse buttons (only left is distinguished by the code). -/
inductive MouseButton where
  | left
  | right
  | middle
deriving DecidableEq, Repr

/-- Keyboard keys (only Escape is distinguished by the code). -/
inductive Key where
  | escape
  | other
deriving DecidableEq, Repr

/-- The `QEvent` types relevant to `changeEvent`. -/
inductive QEventType where
  | activationChange
  | otherChange
deriving DecidableEq, Repr

/-- Observable side effects of the handlers: signal emissions on the
`Communicate` bus, repaint requests (`self.update()`), the focus request and
the DE-specific remote move calls of the Wayland workaround, and the
background (re)draw performed on show. -/
inductive Eff where
  | update
  | emitEsc
  | emitRegion (r : Rect) (index : ℕ)
  | emitPositioned
  | setFocus
  | remoteMoveGnome (left top : Int) (width height : ℕ)
  | remoteMoveKde (left top : Int) (width height : ℕ)
  | drawBackground
deriving DecidableEq, Repr

/-- Signal emissions on the window's communication bus. -/
def Eff.isSignal : Eff → Bool
  | .emitEsc => true
  | .emitRegion _ _ => true
  | .emitPositioned => true
  | _ => false

/-- Effects belonging to the Wayland positioning workaround: the focus
request, the two remote move calls, and the positioned notification. -/
def Eff.isPositioningEff : Eff → Bool
  | .setFocus => true
  | .remoteMoveGnome _ _ _ _ => true
  | .remoteMoveKde _ _ _ _ => true
  | .emitPositioned => true
  | _ => false

/-- The mutable state of a `Window` instance, together with the immutable
`screen_` and `settings` it holds, and the geometry of its `ui_layer`
(the only thing `resizeEvent` touches). -/
structure WindowState where
  selection_start : Point
  selection_end : Point
  is_selecting : Bool
  is_positioned : Bool
  scale_factor : ℚ
  color : String
  ui_layer_size : Int × Int
  screen : Screen
  settings : Settings
deriving DecidableEq, Repr

/-- Errors raised by the embedded code: the explicit
`ValueError("Screenshot image is missing!")` and Python's implicit
`ZeroDivisionError` on division by zero, plus the `KeyError` of an enum
lookup miss. -/
inductive PyError where
  | valueErrorScreenshotMissing
  | zeroDivisionError
  | keyError
deriving DecidableEq, Repr

namespace Window

/-- Embeds `Window._get_scale_factor`: raises if the screenshot is missing, else
returns `screenshot.width() / screen.width` (Python true division; division
by a zero logical width raises `ZeroDivisionError`). -/
def _get_scale_factor (screen : Screen) : Except PyError ℚ :=
  match screen.screenshot with
  | none => .error .valueErrorScreenshotMissing
  | some img =>
      if screen.width = 0 then .error .zeroDivisionError
      else .ok ((img.width : ℚ) / (screen.width : ℚ))

/-- Embeds `Window.__init__`: stores screen and settings, reads the accent color,
clears the positioning flag and the selection state, and computes the scale
factor (propagating its error).  The `ui_layer` initially matches the image
layer's default geometry, modelled as the origin size. -/
def init (screen : Screen) (settings : Settings) : Except PyError WindowState :=
  match _get_scale_factor screen with
  | .error e => .error e
  | .ok sf =>
      .ok { selection_start := Point.empty
            selection_end := Point.empty
            is_selecting := false
            is_positioned := false
            scale_factor := sf
            color := settings.color
            ui_layer_size := (0, 0)
            screen := screen
            settings := settings }

/-- Embeds `Window._draw_background_image`: raises if the screenshot is missing,
else renders it into the image layer. -/
def _draw_background_image (s : WindowState) : Except PyError (List Eff) :=
  match s.screen.screenshot with
  | none => .error .valueErrorScreenshotMissing
  | some _ => .ok [.drawBackground]

/-- Embeds `Window._position_windows_on_wayland`: requests focus, performs the
DE-specific remote move (Gnome or KDE only), then sets `is_positioned`. -/
def _position_windows_on_wayland (env : Env) (s : WindowState) :
    WindowState × List Eff :=
  let moveEffs : List Eff :=
    if env.de = .gnome then
      [.remoteMoveGnome s.screen.left s.screen.top s.screen.width s.screen.height]
    else if env.de = .kde then
      [.remoteMoveKde s.screen.left s.screen.top s.screen.width s.screen.height]
    else []
  ({ s with is_positioned := true }, .setFocus :: moveEffs)

/-- Embeds `Window.keyPressEvent`: on Escape, either cancel an active drag (clear
the flag, request a repaint) or emit `on_esc_key_pressed`. -/
def keyPressEvent (s : WindowState) (k : Key) : WindowState × List Eff :=
  if k = .escape then
    if s.is_selecting then ({ s with is_selecting := false }, [.update])
    else (s, [.emitEsc])
  else (s, [])

/-- Embeds `Window.mousePressEvent`: on a left press, both selection points are set
to the press position, the drag flag is set, and a repaint is requested. -/
def mousePressEvent (s : WindowState) (b : MouseButton) (p : Point) :
    WindowState × List Eff :=
  if b = .left then
    ({ s with selection_start := p, selection_end := p, is_selecting := true },
     [.update])
  else (s, [])

/-- Embeds `Window.mouseMoveEvent`: updates the selection end and requests a
repaint. -/
def mouseMoveEvent (s : WindowState) (p : Point) : WindowState × List Eff :=
  ({ s with selection_end := p }, [.update])

/-- Embeds `Window.mouseReleaseEvent`: ignores non-left releases and releases
without an active drag; otherwise records the final end point, normalizes the
spanned `QRect`, resets the selection state, requests a repaint, and emits
`on_region_selected` with the rectangle scaled into screenshot-pixel space
together with the display index (the emission comes last). -/
def mouseReleaseEvent (s : WindowState) (b : MouseButton) (p : Point) :
    WindowState × List Eff :=
  if b ≠ .left ∨ s.is_selecting = false then (s, [])
  else
    let selected_rect := (QRect.fromPoints s.selection_start p).normalized
    let selected_coords := selected_rect.getCoords
    ({ s with selection_start := Point.empty
              selection_end := Point.empty
              is_selecting := false },
     [.update,
      .emitRegion ((Rect.ofCoords selected_coords).scaled s.scale_factor)
        s.screen.index])

/-- Embeds `Window.changeEvent`: on an activation change, under Wayland, while
active and still unpositioned, runs the positioning workaround and then emits
`on_window_positioned`. -/
def changeEvent (env : Env) (s : WindowState) (t : QEventType)
    (isActiveWindow : Bool) : WindowState × List Eff :=
  if t = .activationChange ∧ env.wayland = true ∧ isActiveWindow = true ∧
      s.is_positioned = false then
    let r := _position_windows_on_wayland env s
    (r.1, r.2 ++ [.emitPositioned])
  else (s, [])

/-- Embeds `Window.resizeEvent`: resizes the `ui_layer` to the window's size. -/
def resizeEvent (s : WindowState) (sz : Int × Int) : WindowState × List Eff :=
  ({ s with ui_layer_size := sz }, [])

/-- Embeds `Window.showEvent`: redraws the background image (which raises when the
screenshot is missing). -/
def showEvent (s : WindowState) : Except PyError (WindowState × List Eff) :=
  match _draw_background_image s with
  | .error e => .error e
  | .ok effs => .ok (s, effs)

end Window

/-- The events a window receives from the toolkit's dispatch loop.  A change
event carries whether `isActiveWindow()` held at dispatch time; a resize
carries the new window size. -/
inductive Event where
  | mousePress (b : MouseButton) (p : Point)
  | mouseMove (p : Point)
  | mouseRelease (b : MouseButton) (p : Point)
  | keyPress (k : Key)
  | change (t : QEventType) (isActiveWindow : Bool)
  | resize (sz : Int × Int)
  | showWindow
deriving DecidableEq, Repr

namespace Window

/-- Dispatch of one event to its handler. -/
def step (env : Env) (s : WindowState) : Event → Except PyError (WindowState × List Eff)
  | .mousePress b p => .ok (mousePressEvent s b p)
  | .mouseMove p => .ok (mouseMoveEvent s p)
  | .mouseRelease b p => .ok (mouseReleaseEvent s b p)
  | .keyPress k => .ok (keyPressEvent s k)
  | .change t a => .ok (changeEvent env s t a)
  | .resize sz => .ok (resizeEvent s sz)
  | .showWindow => showEvent s

/-- Run a sequence of events, collecting all effects in order. -/
def run (env : Env) : WindowState → List Event → Except PyError (WindowState × List Eff)
  | s, [] => .ok (s, [])
  | s, e :: es =>
      match step env s e with
      | .error err => .error err
      | .ok (s', effs) =>
          match run env s' es with
          | .error err => .error err
          | .ok (s'', effs') => .ok (s'', effs ++ effs')

end Window

/-- The drawing operations performed by the overlay's paint handler, with the
data they render.  Text lines carry the model values they format (string
formatting itself is total). -/
inductive DrawOp where
  | setPen
  | debugScreenSize (w h : ℕ)
  | debugScreenshotSize (sz : Int × Int)
  | debugPosScreen (r : Rect)
  | debugPosImage (r : Rect)
  | debugScaleFactor (f : ℚ)
  | debugDPR (d : ℚ)
  | drawRect (r : QRect)
  | paintIcon (m : CaptureMode) (x y w h : Int)
deriving DecidableEq, Repr

namespace UiLayerLabel

/-- Embeds `UiLayerLabel._draw_debug_infos`: renders six fixed text lines — logical
screen size, screenshot pixel size (falling back to the sentinel `(-1, -1)`
when the screenshot is absent), the normalized selection in screen space, the
selection scaled into image space, the scale factor, and the device pixel
ratio. -/
def _draw_debug_infos (s : WindowState) (rect : QRect) : List DrawOp :=
  let selection := Rect.ofCoords rect.normalized.getCoords
  let selection_scaled := selection.scaled s.scale_factor
  let screenshot_size : Int × Int :=
    match s.screen.screenshot with
    | some img => ((img.width : Int), (img.height : Int))
    | none => (-1, -1)
  [.setPen,
   .debugScreenSize s.screen.width s.screen.height,
   .debugScreenshotSize screenshot_size,
   .debugPosScreen selection,
   .debugPosImage selection_scaled,
   .debugScaleFactor s.scale_factor,
   .debugDPR s.screen.dpr]

/-- Embeds `UiLayerLabel.paintEvent`: draws nothing when neither a drag is active
nor debug display is on; otherwise normalizes the current selection, draws
the debug lines when enabled, and — only while a drag is active — draws the
dashed selection rectangle and the mode-indicator icon.  Looking the capture
mode up by its upper-cased name raises `KeyError` for any string that is not
a member of the enumeration. -/
def paintEvent (s : WindowState) (draw_debug_infos : Bool) :
    Except PyError (List DrawOp) :=
  if (s.is_selecting || draw_debug_infos) = false then .ok []
  else
    let rect := (QRect.fromPoints s.selection_start s.selection_end).normalized
    let dbg := if draw_debug_infos then _draw_debug_infos s rect else []
    if s.is_selecting = false then .ok dbg
    else
      match CaptureMode.ofName (pyUpper s.settings.mode) with
      | none => .error .keyError
      | some m =>
          .ok (dbg ++ [.setPen, .drawRect rect,
                       .paintIcon m (rect.right - 24) (rect.top - 30) 24 24])

end UiLayerLabel

/-! Concrete fixtures, used by witnesses and counterexamples.  The screen is
the spec's worked example: display index 0, logical bounds (0, 0, 1000, 800),
a 2000×1600 screenshot, hence scale factor 2. -/

/-- The spec's example screen. -/
def exampleScreen : Screen :=
  { index := 0, left := 0, top := 0, width := 1000, height := 800
    screenshot := some { width := 2000, height := 1600 }, dpr := 2 }

/-- Example settings: parse mode, an accent color string. -/
def exampleSettings : Settings := { mode := "parse", color := "pink" }

/-- The window state produced by constructing a `Window` on the example
screen (scale factor 2000 / 1000 = 2). -/
def exampleWindow : WindowState :=
  { selection_start := Point.empty
    selection_end := Point.empty
    is_selecting := false
    is_positioned := false
    scale_factor := 2
    color := "pink"
    ui_layer_size := (0, 0)
    screen := exampleScreen
    settings := exampleSettings }

/-- A Wayland session on a desktop environment that is neither Gnome nor
KDE. -/
def waylandOtherEnv : Env := { wayland := true, de := .other }

/-- The example window in the middle of a drag from (100, 100), the pointer
currently at (150, 130). -/
def dragWindow : WindowState :=
  { exampleWindow with
      selection_start := ⟨100, 100⟩
      selection_end := ⟨150, 130⟩
      is_selecting := true }

/-- The example screen with its screenshot absent. -/
def noShotScreen : Screen := { exampleScreen with screenshot := none }

/-- A window state over `noShotScreen` (reachable only counterfactually —
construction on that screen fails — but `paintEvent` and `_draw_debug_infos`
are functions of an arbitrary state). -/
def noShotWindow : WindowState := { exampleWindow with screen := noShotScreen }

/-- A screen whose captured image is present but zero pixels wide. -/
def zeroWidthImageScreen : Screen :=
  { exampleScreen with index := 1, screenshot := some { width := 0, height := 0 } }

/-- A degenerate screen descriptor with logical width 0 (and a present
2000×1600 image). -/
def zeroLogicalWidthScreen : Screen := { exampleScreen with width := 0 }

/-- The number of occurrences of an effect in an effect list (structural, so
concrete counts evaluate by `decide`). -/
def countEff (a : Eff) : List Eff → ℕ
  | [] => 0
  | e :: es => (if e = a then 1 else 0) + countEff a es

theorem countEff_append (a : Eff) (l₁ l₂ : List Eff) :
    countEff a (l₁ ++ l₂) = countEff a l₁ + countEff a l₂ := by
  induction l₁ with
  | nil => simp [countEff]
  | cons e es ih => simp [countEff, ih]; omega

/-- C10: a mouse press or release whose button is not the left button leaves
the whole window state unchanged and produces no effect at all — in
particular, a non-left release during an active drag keeps the drag flag and
the stored points and emits nothing. -/
theorem nonleft_mouse_is_noop (s : WindowState) (b : MouseButton) (p : Point)
    (hb : b ≠ MouseButton.left) :
    Window.mousePressEvent s b p = (s, []) ∧
    Window.mouseReleaseEvent s b p = (s, []) := by
  refine ⟨?_, ?_⟩
  · simp [Window.mousePressEvent, hb]
  · simp [Window.mouseReleaseEvent, hb]

/-- Witness for C10: a right-button press and release on a drag-active window
change nothing and emit nothing. -/
theorem nonleft_mouse_is_noop_witness :
    Window.mousePressEvent dragWindow .right ⟨7, 9⟩ = (dragWindow, []) ∧
    Window.mouseReleaseEvent dragWindow .right ⟨7, 9⟩ = (dragWindow, []) :=
  nonleft_mouse_is_noop dragWindow .right ⟨7, 9⟩ (by decide)

/-- C3, counterexample: Escape during an active drag does NOT reset the
stored selection points to the empty point — it only clears the drag flag.
On a drag-active state with start (100, 100) and end (150, 130), the state
after Escape still holds those points, and they differ from the empty
point. -/
theorem escape_drag_keeps_points_counterexample :
    (Window.keyPressEvent dragWindow .escape).1.selection_start = ⟨100, 100⟩ ∧
    (Window.keyPressEvent dragWindow .escape).1.selection_end = ⟨150, 130⟩ ∧
    (⟨100, 100⟩ : Point) ≠ Point.empty ∧ (⟨150, 130⟩ : Point) ≠ Point.empty ∧
    (Window.keyPressEvent dragWindow .escape).1.is_selecting = false := by
  decide

/-- C3, amended: Escape while the drag flag is set clears only the drag flag
and requests a redraw — the stored start/end points are left unchanged — and
emits nothing; Escape while the flag is not set emits exactly the one
cancel-capture notification and mutates no state. -/
theorem escape_semantics (s : WindowState) :
    (s.is_selecting = true →
      Window.keyPressEvent s .escape = ({ s with is_selecting := false }, [.update])) ∧
    (s.is_selecting = false →
      Window.keyPressEvent s .escape = (s, [.emitEsc])) := by
  refine ⟨fun h => ?_, fun h => ?_⟩ <;> simp [Window.keyPressEvent, h]

/-- Witness for the amended C3, at the drag-active state (drag cancelled, one
repaint, nothing emitted) and at the idle example state (exactly one
cancel notification, state untouched). -/
theorem escape_semantics_witness :
    Window.keyPressEvent dragWindow .escape
      = ({ dragWindow with is_selecting := false }, [.update]) ∧
    Window.keyPressEvent exampleWindow .escape = (exampleWindow, [.emitEsc]) :=
  ⟨(escape_semantics dragWindow).1 (by decide),
   (escape_semantics exampleWindow).2 (by decide)⟩

/-- C2, counterexample: under a Wayland session on a desktop environment that
is neither Gnome nor KDE, the first activation of an unpositioned window DOES
set the positioned flag and DOES emit the window-positioned notification
(after requesting focus); only the remote move call is skipped. -/
theorem wayland_other_counterexample :
    Window.changeEvent waylandOtherEnv exampleWindow .activationChange true
      = ({ exampleWindow with is_positioned := true }, [.setFocus, .emitPositioned]) ∧
    ({ exampleWindow with is_positioned := true }).is_positioned ≠ false ∧
    countEff .emitPositioned [.setFocus, .emitPositioned] = 1 := by
  decide

/-- C2, amended: on Wayland with a desktop environment other than Gnome and
KDE, the first activation of an unpositioned window performs no remote
positioning call, but it still requests focus, sets the positioned flag and
emits the window-positioned notification — the notification is emitted on
every first trigger of the workaround, not only on the Gnome/KDE branches. -/
theorem wayland_other_first_activation (env : Env) (s : WindowState)
    (hw : env.wayland = true) (hg : env.de ≠ .gnome) (hk : env.de ≠ .kde)
    (hp : s.is_positioned = false) :
    Window.changeEvent env s .activationChange true
      = ({ s with is_positioned := true }, [.setFocus, .emitPositioned]) := by
  simp [Window.changeEvent, Window._position_windows_on_wayland, hw, hg, hk, hp]

/-- Witness for the amended C2, at the concrete Wayland/other-DE environment
and the example window. -/
theorem wayland_other_first_activation_witness :
    Window.changeEvent waylandOtherEnv exampleWindow .activationChange true
      = ({ exampleWindow with is_positioned := true }, [.setFocus, .emitPositioned]) :=
  wayland_other_first_activation waylandOtherEnv exampleWindow (by decide)
    (by decide) (by decide) (by decide)

/-- C8, counterexample: normalization is not order-insensitive for distinct
points.  For P0 = (0, 0) and P1 = (1, 0), the rectangle spanned by (P0, P1)
normalizes to coordinates (0, 0, 1, 0), while the one spanned by (P1, P0)
normalizes to (1, 0, 0, 0): Qt-6 normalization swaps the corners with a
one-pixel shift that preserves the (here zero) width, so the two orders
disagree although P0 ≠ P1. -/
theorem normalized_order_counterexample :
    (QRect.fromPoints ⟨0, 0⟩ ⟨1, 0⟩).normalized
      ≠ (QRect.fromPoints ⟨1, 0⟩ ⟨0, 0⟩).normalized ∧
    (⟨0, 0⟩ : Point) ≠ ⟨1, 0⟩ := by
  decide

/-- C8, amended: normalizing an already-normalized rectangle yields that same
rectangle (idempotence holds), but normalization is order-sensitive:
normalizing the rectangle spanned by (P1, P0) yields the same rectangle as
normalizing the one spanned by (P0, P1) exactly when P0 = P1 — for distinct
points the swapped corners are shifted one pixel on each axis where the
points differ, so the two orders always disagree. -/
theorem normalized_idempotent_and_order (r : QRect) (p0 p1 : Point) :
    r.normalized.normalized = r.normalized ∧
    ((QRect.fromPoints p0 p1).normalized = (QRect.fromPoints p1 p0).normalized
      ↔ p0 = p1) := by
  constructor
  · simp only [QRect.normalized, QRect.mk.injEq]
    split_ifs <;> omega
  · constructor
    · intro h
      cases p0 with
      | mk a b =>
        cases p1 with
        | mk c d =>
          simp only [QRect.fromPoints, QRect.normalized, QRect.mk.injEq] at h
          simp only [Point.mk.injEq]
          split_ifs at h <;> omega
    · intro h
      rw [h]

/-- Witness for the amended C8, instantiated at the reversed rectangle
(5, 7, 2, 3) and at the coinciding point pair (1, 1), (1, 1). -/
theorem normalized_idempotent_and_order_witness :
    (QRect.normalized ⟨5, 7, 2, 3⟩).normalized.normalized
      = (QRect.normalized ⟨5, 7, 2, 3⟩).normalized ∧
    ((QRect.fromPoints ⟨1, 1⟩ ⟨1, 1⟩).normalized
        = (QRect.fromPoints ⟨1, 1⟩ ⟨1, 1⟩).normalized
      ↔ (⟨1, 1⟩ : Point) = ⟨1, 1⟩) :=
  normalized_idempotent_and_order (QRect.normalized ⟨5, 7, 2, 3⟩) ⟨1, 1⟩ ⟨1, 1⟩

theorem filter_isSignal_replicate_update (n : ℕ) :
    (List.replicate n Eff.update).filter Eff.isSignal = [] := by
  induction n with
  | zero => rfl
  | succ n ih => simp [List.replicate_succ, Eff.isSignal, ih]

/-- Running the tail of a drag — any pointer moves followed by a left release
at `Pn` — from a drag-active state resets the selection, requests one repaint
per event, and finally emits the selection spanned by the stored start point
and `Pn`, normalized and scaled. -/
theorem run_moves_release (env : Env) (Pn : Point) :
    ∀ (moves : List Point) (s : WindowState), s.is_selecting = true →
      Window.run env s (moves.map Event.mouseMove ++ [Event.mouseRelease .left Pn])
        = .ok ({ s with selection_start := Point.empty,
                        selection_end := Point.empty,
                        is_selecting := false },
               List.replicate moves.length Eff.update ++
                 [Eff.update,
                  Eff.emitRegion
                    ((Rect.ofCoords
                        ((QRect.fromPoints s.selection_start Pn).normalized.getCoords)).scaled
                      s.scale_factor)
                    s.screen.index]) := by
  intro moves
  induction moves with
  | nil =>
      intro s hs
      simp [Window.run, Window.step, Window.mouseReleaseEvent, hs]
  | cons p ps ih =>
      intro s hs
      have h := ih { s with selection_end := p } hs
      simp [Window.run, Window.step, Window.mouseMoveEvent, h, List.replicate_succ]

/-- C1, amended: a full drag — left press at `P0`, any finite sequence of
moves, left release at `Pn` — requests one repaint per event and emits
exactly one signal, the region-selected notification carrying the Qt-6
normalization of the rectangle spanned by `(P0, Pn)` scaled by the window's
fixed scale factor, together with the display index; the result is
independent of the intermediate move points.  For non-reversed drags
(`P0.x ≤ Pn.x` and `P0.y ≤ Pn.y`, as in the spec's example) the emitted
rectangle coincides with the axis-aligned min/max normalization the spec
describes; for a drag reversed along an axis, Qt-6 normalization shifts the
swapped corners one pixel inwards, so the two differ. -/
theorem drag_selection (env : Env) (s : WindowState) (P0 Pn : Point)
    (moves : List Point) :
    Window.run env s
        (Event.mousePress .left P0 ::
          (moves.map Event.mouseMove ++ [Event.mouseRelease .left Pn]))
      = .ok ({ s with selection_start := Point.empty,
                      selection_end := Point.empty,
                      is_selecting := false },
             Eff.update :: (List.replicate moves.length Eff.update ++
               [Eff.update,
                Eff.emitRegion
                  ((Rect.ofCoords ((QRect.fromPoints P0 Pn).normalized.getCoords)).scaled
                    s.scale_factor)
                  s.screen.index])) ∧
    (Eff.update :: (List.replicate moves.length Eff.update ++
       [Eff.update,
        Eff.emitRegion
          ((Rect.ofCoords ((QRect.fromPoints P0 Pn).normalized.getCoords)).scaled
            s.scale_factor)
          s.screen.index])).filter Eff.isSignal
      = [Eff.emitRegion
          ((Rect.ofCoords ((QRect.fromPoints P0 Pn).normalized.getCoords)).scaled
            s.scale_factor)
          s.screen.index] ∧
    (P0.x ≤ Pn.x → P0.y ≤ Pn.y →
      Rect.ofCoords ((QRect.fromPoints P0 Pn).normalized.getCoords)
        = specNormalize P0 Pn) := by
  refine ⟨?_, ?_, ?_⟩
  · have h := run_moves_release env Pn moves
      { s with selection_start := P0, selection_end := P0, is_selecting := true } rfl
    simp [Window.run, Window.step, Window.mousePressEvent, h]
  · simp [List.filter_append, filter_isSignal_replicate_update, Eff.isSignal]
  · intro hx hy
    have hx' : ¬ (Pn.x < P0.x) := not_lt.mpr hx
    have hy' : ¬ (Pn.y < P0.y) := not_lt.mpr hy
    simp [QRect.fromPoints, QRect.normalized, QRect.getCoords, Rect.ofCoords,
      specNormalize, hx', hy', min_eq_left hx, max_eq_right hx,
      min_eq_left hy, max_eq_right hy]

/-- Witness for the amended C1, at the spec's worked example: on a window
with scale factor 2 over display 0, the drag (100,100) → (150,130) →
(300,250) emits exactly the rectangle (200,200)-(600,500) with index 0, and
this forward drag's normalization agrees with the spec's min/max
normalization. -/
theorem drag_selection_witness :
    Window.run waylandOtherEnv exampleWindow
        [Event.mousePress .left ⟨100, 100⟩, Event.mouseMove ⟨150, 130⟩,
         Event.mouseRelease .left ⟨300, 250⟩]
      = .ok (exampleWindow,
             [Eff.update, Eff.update, Eff.update,
              Eff.emitRegion ⟨200, 200, 600, 500⟩ 0]) ∧
    Rect.ofCoords ((QRect.fromPoints ⟨100, 100⟩ ⟨300, 250⟩).normalized.getCoords)
      = specNormalize ⟨100, 100⟩ ⟨300, 250⟩ := by
  have h := drag_selection waylandOtherEnv exampleWindow ⟨100, 100⟩ ⟨300, 250⟩
    [⟨150, 130⟩]
  refine ⟨?_, h.2.2 (by decide) (by decide)⟩
  have h1 := h.1
  norm_num [exampleWindow, exampleScreen, exampleSettings, Point.empty,
    QRect.fromPoints, QRect.normalized, QRect.getCoords, Rect.ofCoords,
    Rect.scaled, List.replicate] at h1 ⊢
  exact h1

/-- C1, counterexample: for the reversed drag P0 = (0, 1), Pn = (0, 0) on the
example window (scale factor 2, display 0), the emitted rectangle is
(0, 2, 0, 0) — the Qt-normalized span scaled by 2 — whereas the axis-aligned
normalization of the span scaled by 2 is (0, 0, 0, 2); the two differ, so the
payload is not the axis-aligned normalization of the spanned rectangle. -/
theorem drag_selection_counterexample :
    Window.run waylandOtherEnv exampleWindow
        [Event.mousePress .left ⟨0, 1⟩, Event.mouseRelease .left ⟨0, 0⟩]
      = .ok (exampleWindow,
             [Eff.update, Eff.update, Eff.emitRegion ⟨0, 2, 0, 0⟩ 0]) ∧
    (specNormalize ⟨0, 1⟩ ⟨0, 0⟩).scaled exampleWindow.scale_factor
      = ⟨0, 0, 0, 2⟩ ∧
    (⟨0, 2, 0, 0⟩ : Rect) ≠ ⟨0, 0, 0, 2⟩ := by
  refine ⟨?_, ?_, by decide⟩
  · norm_num [Window.run, Window.step, Window.mousePressEvent,
      Window.mouseReleaseEvent, QRect.fromPoints, QRect.normalized,
      QRect.getCoords, Rect.ofCoords, Rect.scaled, exampleWindow,
      exampleScreen, exampleSettings, Point.empty]
  · norm_num [specNormalize, Rect.scaled, exampleWindow]

theorem pair_eq_dest {α β : Type} {p : α × β} {a : α} {b : β} (h : p = (a, b)) :
    a = p.1 ∧ b = p.2 := by
  rw [h]
  exact ⟨rfl, rfl⟩

theorem countEff_eq_zero_of_filter (a : Eff) (l : List Eff)
    (ha : Eff.isPositioningEff a = true)
    (h : l.filter Eff.isPositioningEff = []) : countEff a l = 0 := by
  induction l with
  | nil => rfl
  | cons e es ih =>
      rw [List.filter_cons] at h
      split at h
      · simp at h
      · rename_i hpe
        have hea : e ≠ a := fun he => hpe (he ▸ ha)
        simp [countEff, hea, ih h]

/-- One event either leaves the positioned flag as it is and produces no
positioning effect, or it is the (unique) trigger: it finds the flag unset,
sets it, and produces exactly one focus request and one positioned
notification. -/
theorem step_positioning (env : Env) (s : WindowState) (e : Event)
    (s' : WindowState) (effs : List Eff)
    (h : Window.step env s e = .ok (s', effs)) :
    (s'.is_positioned = s.is_positioned ∧
      effs.filter Eff.isPositioningEff = []) ∨
    (s.is_positioned = false ∧ s'.is_positioned = true ∧
      countEff .setFocus effs = 1 ∧ countEff .emitPositioned effs = 1) := by
  cases e with
  | mousePress b p =>
      simp only [Window.step, Except.ok.injEq] at h
      obtain ⟨h1, h2⟩ := pair_eq_dest h
      subst h1; subst h2
      left
      unfold Window.mousePressEvent
      split_ifs <;> simp [Eff.isPositioningEff]
  | mouseMove p =>
      simp only [Window.step, Except.ok.injEq] at h
      obtain ⟨h1, h2⟩ := pair_eq_dest h
      subst h1; subst h2
      left
      simp [Window.mouseMoveEvent, Eff.isPositioningEff]
  | mouseRelease b p =>
      simp only [Window.step, Except.ok.injEq] at h
      obtain ⟨h1, h2⟩ := pair_eq_dest h
      subst h1; subst h2
      left
      unfold Window.mouseReleaseEvent
      split_ifs <;> simp [Eff.isPositioningEff]
  | keyPress k =>
      simp only [Window.step, Except.ok.injEq] at h
      obtain ⟨h1, h2⟩ := pair_eq_dest h
      subst h1; subst h2
      left
      unfold Window.keyPressEvent
      split_ifs <;> simp [Eff.isPositioningEff]
  | change t a =>
      simp only [Window.step, Except.ok.injEq] at h
      obtain ⟨h1, h2⟩ := pair_eq_dest h
      subst h1; subst h2
      unfold Window.changeEvent
      split_ifs with hc
      · right
        obtain ⟨ht, hw, ha, hp⟩ := hc
        refine ⟨hp, by simp [Window._position_windows_on_wayland], ?_, ?_⟩ <;>
          · unfold Window._position_windows_on_wayland
            split_ifs <;> rfl
      · left
        simp [Eff.isPositioningEff]
  | resize sz =>
      simp only [Window.step, Except.ok.injEq] at h
      obtain ⟨h1, h2⟩ := pair_eq_dest h
      subst h1; subst h2
      left
      simp [Window.resizeEvent, Eff.isPositioningEff]
  | showWindow =>
      simp only [Window.step, Window.showEvent, Window._draw_background_image] at h
      cases hsc : s.screen.screenshot with
      | none => rw [hsc] at h; simp at h
      | some img =>
          rw [hsc] at h
          simp only [Except.ok.injEq] at h
          obtain ⟨h1, h2⟩ := pair_eq_dest h
          subst h1; subst h2
          left
          simp [Eff.isPositioningEff]

/-- C7: over every event sequence, the Wayland positioning workaround runs at
most once.  The positioned flag is one-way (once true it stays true), a run
starting from a positioned window produces no positioning effect at all (no
focus request, no remote move, no positioned notification), and any run
performs at most one focus request and at most one positioned
notification — zero when the window starts positioned. -/
theorem wayland_positioning_once (env : Env) :
    ∀ (evs : List Event) (s s' : WindowState) (effs : List Eff),
      Window.run env s evs = .ok (s', effs) →
      (s.is_positioned = true → s'.is_positioned = true ∧
        effs.filter Eff.isPositioningEff = []) ∧
      countEff .setFocus effs ≤ (if s.is_positioned then 0 else 1) ∧
      countEff .emitPositioned effs ≤ (if s.is_positioned then 0 else 1) := by
  intro evs
  induction evs with
  | nil =>
      intro s s' effs h
      simp only [Window.run, Except.ok.injEq] at h
      obtain ⟨rfl, rfl⟩ := Prod.mk.inj h
      simp [countEff]
  | cons e es ih =>
      intro s s' effs h
      simp only [Window.run] at h
      split at h
      · exact absurd h (by simp)
      · rename_i s₁ e₁ hstep
        split at h
        · exact absurd h (by simp)
        · rename_i s₂ e₂ hrun
          simp only [Except.ok.injEq] at h
          obtain ⟨rfl, rfl⟩ := Prod.mk.inj h
          have hs := step_positioning env s e s₁ e₁ hstep
          have hr := ih s₁ s₂ e₂ hrun
          rcases hs with ⟨hflag, hfilter⟩ | ⟨hf, ht, hc1, hc2⟩
          · refine ⟨?_, ?_, ?_⟩
            · intro hpos
              obtain ⟨hp2, hfil2⟩ := hr.1 (hflag.trans hpos)
              exact ⟨hp2, by simp [List.filter_append, hfilter, hfil2]⟩
            · have z1 : countEff .setFocus e₁ = 0 :=
                countEff_eq_zero_of_filter _ _ rfl hfilter
              have hb := hr.2.1
              rw [hflag] at hb
              rw [countEff_append, z1]
              omega
            · have z2 : countEff .emitPositioned e₁ = 0 :=
                countEff_eq_zero_of_filter _ _ rfl hfilter
              have hb := hr.2.2
              rw [hflag] at hb
              rw [countEff_append, z2]
              omega
          · obtain ⟨hp2, hfil2⟩ := hr.1 ht
            have z1 : countEff .setFocus e₂ = 0 :=
              countEff_eq_zero_of_filter _ _ rfl hfil2
            have z2 : countEff .emitPositioned e₂ = 0 :=
              countEff_eq_zero_of_filter _ _ rfl hfil2
            refine ⟨fun hpos => absurd (hf ▸ hpos) (by simp), ?_, ?_⟩ <;>
              · rw [hf]
                simp [countEff_append, hc1, hc2, z1, z2]

/-- Witness for C7: two successive activation events on the unpositioned
example window under Wayland produce in total exactly one focus request and
one positioned notification — within the bound of one. -/
theorem wayland_positioning_once_witness :
    countEff .setFocus [Eff.setFocus, Eff.emitPositioned] ≤ 1 ∧
    countEff .emitPositioned [Eff.setFocus, Eff.emitPositioned] ≤ 1 := by
  have h := wayland_positioning_once waylandOtherEnv
    [.change .activationChange true, .change .activationChange true]
    exampleWindow ({ exampleWindow with is_positioned := true })
    [Eff.setFocus, Eff.emitPositioned] (by decide)
  refine ⟨?_, ?_⟩
  · have hb := h.2.1
    simpa [exampleWindow] using hb
  · have hb := h.2.2
    simpa [exampleWindow] using hb
/-- A single event never changes the stored scale factor. -/
theorem step_scale_factor (env : Env) (s : WindowState) (e : Event)
    (s' : WindowState) (effs : List Eff)
    (h : Window.step env s e = .ok (s', effs)) :
    s'.scale_factor = s.scale_factor := by
  cases e with
  | mousePress b p =>
      simp only [Window.step, Except.ok.injEq] at h
      obtain ⟨h1, h2⟩ := pair_eq_dest h
      subst h1
      unfold Window.mousePressEvent
      split_ifs <;> rfl
  | mouseMove p =>
      simp only [Window.step, Except.ok.injEq] at h
      obtain ⟨h1, h2⟩ := pair_eq_dest h
      subst h1
      rfl
  | mouseRelease b p =>
      simp only [Window.step, Except.ok.injEq] at h
      obtain ⟨h1, h2⟩ := pair_eq_dest h
      subst h1
      unfold Window.mouseReleaseEvent
      split_ifs <;> rfl
  | keyPress k =>
      simp only [Window.step, Except.ok.injEq] at h
      obtain ⟨h1, h2⟩ := pair_eq_dest h
      subst h1
      unfold Window.keyPressEvent
      split_ifs <;> rfl
  | change t a =>
      simp only [Window.step, Except.ok.injEq] at h
      obtain ⟨h1, h2⟩ := pair_eq_dest h
      subst h1
      unfold Window.changeEvent Window._position_windows_on_wayland
      split_ifs <;> rfl
  | resize sz =>
      simp only [Window.step, Except.ok.injEq] at h
      obtain ⟨h1, h2⟩ := pair_eq_dest h
      subst h1
      rfl
  | showWindow =>
      simp only [Window.step, Window.showEvent, Window._draw_background_image] at h
      cases hsc : s.screen.screenshot with
      | none => rw [hsc] at h; simp at h
      | some img =>
          rw [hsc] at h
          simp only [Except.ok.injEq] at h
          obtain ⟨h1, h2⟩ := pair_eq_dest h
          subst h1
          rfl

/-- No event sequence ever changes the stored scale factor. -/
theorem run_scale_factor (env : Env) :
    ∀ (evs : List Event) (s s' : WindowState) (effs : List Eff),
      Window.run env s evs = .ok (s', effs) →
      s'.scale_factor = s.scale_factor := by
  intro evs
  induction evs with
  | nil =>
      intro s s' effs h
      simp only [Window.run, Except.ok.injEq] at h
      obtain ⟨rfl, rfl⟩ := Prod.mk.inj h
      rfl
  | cons e es ih =>
      intro s s' effs h
      simp only [Window.run] at h
      split at h
      · exact absurd h (by simp)
      · rename_i s₁ e₁ hstep
        split at h
        · exact absurd h (by simp)
        · rename_i s₂ e₂ hrun
          simp only [Except.ok.injEq] at h
          obtain ⟨rfl, rfl⟩ := Prod.mk.inj h
          exact (ih s₁ s₂ e₂ hrun).trans (step_scale_factor env s e s₁ e₁ hstep)

/-- C9: the scale factor is fixed at construction as the ratio of screenshot
pixel width to logical screen width, and no event handler ever reassigns or
recomputes it; in particular the resize handler only resizes the overlay
layer and leaves every other field of the state unchanged. -/
theorem scale_factor_fixed (screen : Screen) (settings : Settings)
    (w : WindowState) (env : Env) (evs : List Event) (s' : WindowState)
    (effs : List Eff) (hinit : Window.init screen settings = .ok w)
    (hrun : Window.run env w evs = .ok (s', effs)) :
    (∃ img, screen.screenshot = some img ∧
       w.scale_factor = (img.width : ℚ) / (screen.width : ℚ) ∧
       s'.scale_factor = w.scale_factor) ∧
    (∀ (t : WindowState) (sz : Int × Int),
       Window.resizeEvent t sz = ({ t with ui_layer_size := sz }, [])) := by
  refine ⟨?_, fun t sz => rfl⟩
  unfold Window.init Window._get_scale_factor at hinit
  cases hsc : screen.screenshot with
  | none => rw [hsc] at hinit; simp at hinit
  | some img =>
      rw [hsc] at hinit
      split_ifs at hinit with hw
      simp only [Except.ok.injEq] at hinit
      subst hinit
      exact ⟨img, rfl, rfl, run_scale_factor env evs _ s' effs hrun⟩

/-- Witness for C9: constructing on the example screen gives scale factor
2000 / 1000, and a resize to 640×480 leaves the scale factor untouched. -/
theorem scale_factor_fixed_witness :
    ∃ img, exampleScreen.screenshot = some img ∧
      exampleWindow.scale_factor = (img.width : ℚ) / (exampleScreen.width : ℚ) ∧
      ({ exampleWindow with
          ui_layer_size := ((640 : Int), (480 : Int)) }).scale_factor
        = exampleWindow.scale_factor :=
  (scale_factor_fixed exampleScreen exampleSettings exampleWindow
    waylandOtherEnv [.resize ((640 : Int), (480 : Int))]
    ({ exampleWindow with ui_layer_size := ((640 : Int), (480 : Int)) }) []
    (by norm_num [Window.init, Window._get_scale_factor, exampleScreen,
      exampleSettings, exampleWindow, Point.empty])
    (by decide)).1

/-- C5, amended: when construction succeeds, the scale factor is the ratio of
screenshot pixel width to logical screen width, the screenshot is present,
the logical width is positive (an absent image or a zero logical width makes
construction fail), the scale factor is nonnegative, and it is strictly
positive exactly when the screenshot pixel width is positive — a present
zero-width screenshot yields scale factor 0 without failing construction. -/
theorem scale_factor_construction (screen : Screen) (settings : Settings)
    (w : WindowState) (h : Window.init screen settings = .ok w) :
    ∃ img, screen.screenshot = some img ∧ 0 < screen.width ∧
      w.scale_factor = (img.width : ℚ) / (screen.width : ℚ) ∧
      0 ≤ w.scale_factor ∧ (0 < w.scale_factor ↔ 0 < img.width) := by
  unfold Window.init Window._get_scale_factor at h
  cases hsc : screen.screenshot with
  | none => rw [hsc] at h; simp at h
  | some img =>
      rw [hsc] at h
      split_ifs at h with hw
      simp only [Except.ok.injEq] at h
      subst h
      refine ⟨img, rfl, Nat.pos_of_ne_zero hw, rfl, ?_, ?_, ?_⟩
      · exact div_nonneg (Nat.cast_nonneg _) (Nat.cast_nonneg _)
      · intro hpos
        by_contra hz
        have hz0 : img.width = 0 := by omega
        rw [hz0] at hpos
        simp at hpos
      · intro hpos
        have hwq : (0 : ℚ) < (screen.width : ℚ) := by
          exact_mod_cast Nat.pos_of_ne_zero hw
        exact div_pos (by exact_mod_cast hpos) hwq

/-- Witness for the amended C5: on the example screen construction succeeds
with the strictly positive scale factor 2000 / 1000. -/
theorem scale_factor_construction_witness :
    ∃ img, exampleScreen.screenshot = some img ∧ 0 < exampleScreen.width ∧
      exampleWindow.scale_factor = (img.width : ℚ) / (exampleScreen.width : ℚ) ∧
      0 ≤ exampleWindow.scale_factor ∧
      (0 < exampleWindow.scale_factor ↔ 0 < img.width) :=
  scale_factor_construction exampleScreen exampleSettings exampleWindow
    (by norm_num [Window.init, Window._get_scale_factor, exampleScreen,
      exampleSettings, exampleWindow, Point.empty])

/-- The window state produced by constructing a `Window` on
`zeroWidthImageScreen`: the present screenshot is 0 pixels wide, so the
computed scale factor is 0 / 1000 = 0. -/
def zeroScaleWindow : WindowState :=
  { exampleWindow with screen := zeroWidthImageScreen, scale_factor := 0 }

/-- C5, counterexample: on a screen whose present screenshot is zero pixels
wide, the computed scale factor is 0 — not strictly positive — and yet
construction succeeds and produces a Window instead of failing: positivity of
the ratio is never checked. -/
theorem scale_factor_construction_counterexample :
    Window.init zeroWidthImageScreen exampleSettings = .ok zeroScaleWindow ∧
    ¬ (0 < zeroScaleWindow.scale_factor) := by
  constructor
  · norm_num [Window.init, Window._get_scale_factor, zeroWidthImageScreen,
      exampleScreen, zeroScaleWindow, exampleWindow, exampleSettings,
      Point.empty]
  · norm_num [zeroScaleWindow, exampleWindow]

/-- C6, amended: a Screen with an absent captured image makes construction
raise the screenshot-missing error, and redrawing the background at show time
raises the same error; a Screen with a present image and a nonzero logical
width constructs successfully, establishing the scale factor (a zero logical
width instead raises a division error even when the image is present). -/
theorem missing_screenshot_fatal (screen : Screen) (settings : Settings) :
    (screen.screenshot = none →
       Window.init screen settings = .error .valueErrorScreenshotMissing ∧
       (∀ s : WindowState, s.screen = screen →
          Window.showEvent s = .error .valueErrorScreenshotMissing)) ∧
    (∀ img, screen.screenshot = some img → screen.width ≠ 0 →
       ∃ w, Window.init screen settings = .ok w ∧
         w.scale_factor = (img.width : ℚ) / (screen.width : ℚ)) := by
  constructor
  · intro hn
    constructor
    · unfold Window.init Window._get_scale_factor
      rw [hn]
    · intro s hs
      unfold Window.showEvent Window._draw_background_image
      rw [hs, hn]
  · intro img hsome hw
    refine ⟨{ selection_start := Point.empty, selection_end := Point.empty,
              is_selecting := false, is_positioned := false,
              scale_factor := (img.width : ℚ) / (screen.width : ℚ),
              color := settings.color, ui_layer_size := (0, 0),
              screen := screen, settings := settings }, ?_, rfl⟩
    unfold Window.init Window._get_scale_factor
    rw [hsome]
    simp [hw]

/-- Witness for the amended C6: construction on the image-less example screen
raises, showing a window over that screen raises, and construction on the
intact example screen succeeds with scale factor 2000 / 1000. -/
theorem missing_screenshot_fatal_witness :
    Window.init noShotScreen exampleSettings
      = .error .valueErrorScreenshotMissing ∧
    Window.showEvent noShotWindow = .error .valueErrorScreenshotMissing ∧
    ∃ w, Window.init exampleScreen exampleSettings = .ok w ∧
      w.scale_factor = ((2000 : ℕ) : ℚ) / ((1000 : ℕ) : ℚ) :=
  ⟨((missing_screenshot_fatal noShotScreen exampleSettings).1 (by decide)).1,
   ((missing_screenshot_fatal noShotScreen exampleSettings).1 (by decide)).2
     noShotWindow (by decide),
   (missing_screenshot_fatal exampleScreen exampleSettings).2
     { width := 2000, height := 1600 } (by decide) (by decide)⟩

/-- C6, counterexample: on a degenerate Screen whose image is present but
whose logical width is 0, construction does not succeed — it raises a
division error — so "for every Screen with a present image, construction
succeeds" fails. -/
theorem missing_screenshot_fatal_counterexample :
    zeroLogicalWidthScreen.screenshot = some { width := 2000, height := 1600 } ∧
    Window.init zeroLogicalWidthScreen exampleSettings
      = .error .zeroDivisionError := by
  decide

/-- C4, amended: the overlay's paint handler is total for every selection
state and every accent color, provided that — when the drag flag is set —
the capture-mode string maps (case-insensitively) to a member of the
enumeration; a drag-inactive redraw is total for every settings state.  Any
other mode string makes a drag-active redraw raise a lookup error, so paint
is not total over all strings.  Independently, an absent screenshot never
fails the debug text: it falls back to the sentinel size (-1, -1). -/
theorem paint_total (s : WindowState) (dbg : Bool) :
    ((s.is_selecting = true →
        (CaptureMode.ofName (pyUpper s.settings.mode)).isSome = true) →
      ∃ ops, UiLayerLabel.paintEvent s dbg = .ok ops) ∧
    (s.screen.screenshot = none → ∀ r : QRect,
      DrawOp.debugScreenshotSize (-1, -1) ∈ UiLayerLabel._draw_debug_infos s r) := by
  constructor
  · intro hmode
    cases hsel : s.is_selecting with
    | false =>
        unfold UiLayerLabel.paintEvent
        rw [hsel]
        cases dbg with
        | false => exact ⟨_, rfl⟩
        | true => exact ⟨_, rfl⟩
    | true =>
        have hm := hmode hsel
        unfold UiLayerLabel.paintEvent
        rw [hsel]
        cases hof : CaptureMode.ofName (pyUpper s.settings.mode) with
        | none => rw [hof] at hm; simp at hm
        | some m => exact ⟨_, rfl⟩
  · intro hn r
    unfold UiLayerLabel._draw_debug_infos
    rw [hn]
    simp

/-- Witness for the amended C4: a drag-active redraw with the valid mode
string of the example settings succeeds, and the debug lines over a state
with an absent screenshot contain the sentinel size (-1, -1). -/
theorem paint_total_witness :
    (∃ ops, UiLayerLabel.paintEvent dragWindow false = .ok ops) ∧
    DrawOp.debugScreenshotSize (-1, -1)
      ∈ UiLayerLabel._draw_debug_infos noShotWindow ⟨0, 0, 0, 0⟩ :=
  ⟨(paint_total dragWindow false).1 (fun _ => by decide),
   (paint_total noShotWindow true).2 (by decide) ⟨0, 0, 0, 0⟩⟩

/-- The example window mid-drag but with a capture-mode string that is not a
member of the enumeration. -/
def badModeWindow : WindowState :=
  { dragWindow with settings := { mode := "bogus", color := "pink" } }

/-- C4, counterexample: with the capture-mode key set to the string "bogus",
a redraw while the drag flag is set raises a lookup error instead of
completing — the paint operation is not a total function over all string
values of the capture-mode key. -/
theorem paint_total_counterexample :
    badModeWindow.is_selecting = true ∧
    UiLayerLabel.paintEvent badModeWindow false = .error .keyError := by
  decide

end NormCap
